import Mathlib

/-!
# WeChat corp-account channel: credential descriptor and send adapter

A shallow embedding of `channel/wechat-corp-account.go`.

* Go strings are embedded as Lean `String`; the only separator the code ever
  looks for is the one-byte ASCII bar, so splitting by characters and splitting
  by bytes agree.
* A Go `error` value is embedded as `Option String` (`none` is `nil`, `some m` is
  an error whose `Error()` text is `m`).
* What the code does to the outside world (log lines, token-store lookups, HTTP
  calls) is recorded as a list of `Effect`s, in program order.
* What the outside world answers (HTTP outcome, JSON decoding outcome, the token
  store, the marshaller) is an explicit argument.
-/

namespace channel

/-! ## Library functions used by the source -/

/-- Go `strings.IndexByte` on the characters of a string: the position of the first
occurrence of `sep`, or `none` (Go: `-1`) when there is none. -/
def Index : List Char → Char → Option Nat
  | [], _ => none
  | c :: cs, sep => if c = sep then some 0 else (Index cs sep).map (· + 1)

/-- Go `strings.Count` for a one-character separator. -/
def Count (s : List Char) (sep : Char) : Nat := s.count sep

/-- The loop of Go `strings.genSplit` (with `sepSave = 0` and a one-character
separator): at most `n` cuts, each at the first remaining separator; the rest of
the string is the last piece. -/
def genSplitLoop (sep : Char) : Nat → List Char → List (List Char)
  | 0, s => [s]
  | n + 1, s =>
    match Index s sep with
    | none => [s]
    | some m => s.take m :: genSplitLoop sep n (s.drop (m + 1))

/-- Go `strings.Split(s, sep)` for a one-character separator: `genSplit(s, sep, 0, -1)`,
which sets `n = Count(s, sep) + 1` and runs the loop `n - 1` times. -/
def Split (s : String) (sep : Char) : List String :=
  (genSplitLoop sep (Count s.data sep) s.data).map String.mk

/-! ## Data model -/

/-- Go `wechatCorpAccountResponse`: the decoded body of the token exchange. -/
structure wechatCorpAccountResponse where
  ErrorCode : Int
  ErrorMessage : String
  AccessToken : String
  ExpiresIn : Int
  deriving DecidableEq, Repr

/-- Go `WeChatCorpAccountTokenStoreItem`: the credential descriptor. -/
structure WeChatCorpAccountTokenStoreItem where
  CorpId : String
  AgentSecret : String
  AgentId : String
  AccessToken : String
  deriving DecidableEq, Repr

/-- Modelled from the spec: `model.Channel` is declared outside this file; these are
the channel configuration fields the source reads (provider type, secret, application
identity, recipient identifier, formatting discriminator). -/
structure Channel where
  Type_ : String
  Secret : String
  AppId : String
  AccountId : String
  Other : String
  deriving DecidableEq, Repr

/-- Modelled from the spec: `model.Message` is declared outside this file; these are
the message fields the source reads or writes. -/
structure Message where
  Title : String
  Description : String
  Content : String
  URL : String
  To : String
  deriving DecidableEq, Repr

/-- Modelled from the spec: `model.User` is declared outside this file; the source
receives a user and reads none of its fields. -/
structure User where
  Username : String
  deriving DecidableEq, Repr

/-- Go `wechatCorpMessageRequest.TextCard`. -/
structure TextCardBody where
  Title : String
  Description : String
  URL : String
  deriving DecidableEq, Repr

/-- Go `wechatCorpMessageRequest.Text` and `.Markdown`. -/
structure ContentBody where
  Content : String
  deriving DecidableEq, Repr

/-- Go `wechatCorpMessageRequest`. -/
structure wechatCorpMessageRequest where
  MessageType : String
  ToUser : String
  AgentId : String
  TextCard : TextCardBody
  Text : ContentBody
  Markdown : ContentBody
  deriving DecidableEq, Repr

/-- Go `wechatCorpMessageResponse`. -/
structure wechatCorpMessageResponse where
  ErrorCode : Int
  ErrorMessage : String
  deriving DecidableEq, Repr

/-- One observable action of the code, in program order. -/
inductive Effect where
  | sysLog (msg : String)
  | sysError (msg : String)
  | tokenStoreGetToken (key : String)
  | httpGet (url : String)
  | httpPost (url : String) (contentType : String) (body : String)
  deriving DecidableEq, Repr

/-! ## Credential descriptor -/

/-- Go `(*WeChatCorpAccountTokenStoreItem).Key`. -/
def Key (i : WeChatCorpAccountTokenStoreItem) : String :=
  i.CorpId ++ i.AgentId ++ i.AgentSecret

/-- The `Where(...)` condition of the query in `IsShared`, on one stored channel. -/
def isSharedCondition (TypeWeChatCorpAccount secret appId : String) (c : Channel) : Bool :=
  c.Secret == secret && c.AppId == appId && c.Type_ == TypeWeChatCorpAccount

/-- Go `(*WeChatCorpAccountTokenStoreItem).IsShared`. The channel table `model.DB` is
a list of channel configurations and `model.TypeWeChatCorpAccount` is an argument.
The result is the returned boolean together with the descriptor and the table as
they are after the call. -/
def IsShared (TypeWeChatCorpAccount : String) (DB : List Channel)
    (i : WeChatCorpAccountTokenStoreItem) :
    Bool × WeChatCorpAccountTokenStoreItem × List Channel :=
  let appId := i.CorpId ++ "|" ++ i.AgentId
  let count := (DB.filter (isSharedCondition TypeWeChatCorpAccount i.AgentSecret appId)).length
  (decide (count > 1), i, DB)

/-- Go `(*WeChatCorpAccountTokenStoreItem).IsFilled`. -/
def IsFilled (i : WeChatCorpAccountTokenStoreItem) : Bool :=
  i.CorpId != "" && i.AgentSecret != "" && i.AgentId != ""

/-- Go `(*WeChatCorpAccountTokenStoreItem).Token`. -/
def Token (i : WeChatCorpAccountTokenStoreItem) : String :=
  i.AccessToken

/-- What the outside world does with one token-exchange attempt. -/
inductive TokenExchange where
  | newRequestFailed (err : String)
  | doFailed (err : String)
  | decodeFailed (err : String)
  | decoded (res : wechatCorpAccountResponse)
  deriving DecidableEq, Repr

/-- The URL of the token exchange built in `Refresh`. -/
def getTokenURL (i : WeChatCorpAccountTokenStoreItem) : String :=
  "https://qyapi.weixin.qq.com/cgi-bin/gettoken?corpid=" ++ i.CorpId ++ "&corpsecret=" ++ i.AgentSecret

/-- Go `(*WeChatCorpAccountTokenStoreItem).Refresh`: the descriptor after the call and
the effects of the call. The Go method has no result value. -/
def Refresh (i : WeChatCorpAccountTokenStoreItem) (x : TokenExchange) :
    WeChatCorpAccountTokenStoreItem × List Effect :=
  match x with
  | .newRequestFailed err => (i, [.sysError err])
  | .doFailed err =>
    (i, [.httpGet (getTokenURL i), .sysError ("failed to refresh access token: " ++ err)])
  | .decodeFailed err =>
    (i, [.httpGet (getTokenURL i),
         .sysError ("failed to decode wechatCorpAccountResponse: " ++ err)])
  | .decoded res =>
    if res.ErrorCode ≠ 0 then
      (i, [.httpGet (getTokenURL i), .sysError res.ErrorMessage])
    else
      ({ i with AccessToken := res.AccessToken },
       [.httpGet (getTokenURL i), .sysLog "access token refreshed"])

/-- A finite sequence of `Refresh` calls on one descriptor, oldest first. -/
def refreshAll (i : WeChatCorpAccountTokenStoreItem) (xs : List TokenExchange) :
    WeChatCorpAccountTokenStoreItem :=
  xs.foldl (fun d x => (Refresh d x).1) i

/-! ## Send adapter -/

/-- Go `parseWechatCorpAccountAppId`: the two sub-identifiers and the error. -/
def parseWechatCorpAccountAppId (appId : String) : String × String × Option String :=
  let parts := Split appId '|'
  if parts.length ≠ 2 then
    ("", "", some "无效的微信企业号配置")
  else
    (parts.getD 0 "", parts.getD 1 "", none)

/-- What the outside world does with the message-send call: `http.Post` fails, the
response body does not decode, or it decodes. -/
inductive PostOutcome where
  | postFailed (err : String)
  | decodeFailed (err : String)
  | decoded (res : wechatCorpMessageResponse)
  deriving DecidableEq, Repr

/-- Everything `SendWeChatCorpMessage` uses that lives outside this file: the constants
`common.SystemName` and `common.ServerAddress`, the token store lookup
`TokenStoreGetToken`, `json.Marshal` on the request, and the answer of the provider to
`http.Post url contentType body`. -/
structure Environment where
  SystemName : String
  ServerAddress : String
  TokenStoreGetToken : String → String
  Marshal : wechatCorpMessageRequest → Except String String
  Post : String → String → String → PostOutcome

/-- The URL of the message-send call built in `SendWeChatCorpMessage`. -/
def sendURL (accessToken : String) : String :=
  "https://qyapi.weixin.qq.com/cgi-bin/message/send?access_token=" ++ accessToken

/-- The request value `messageRequest` that `SendWeChatCorpMessage` fills in between the
title reset and `json.Marshal`, with the text of the line it logs through
`common.SysLog` while doing so. -/
def buildMessageRequest (env : Environment) (message : Message) (channel_ : Channel)
    (agentId : String) : wechatCorpMessageRequest × String :=
  let userId := channel_.AccountId
  let clientType := channel_.Other
  let messageRequest : wechatCorpMessageRequest :=
    { MessageType := "", ToUser := userId, AgentId := agentId,
      TextCard := ⟨"", "", ""⟩, Text := ⟨""⟩, Markdown := ⟨""⟩ }
  let messageRequest :=
    if message.To ≠ "" then { messageRequest with ToUser := message.To } else messageRequest
  if message.Content = "" then
    if message.Title = "" then
      ({ messageRequest with MessageType := "text", Text := ⟨message.Description⟩ },
       "发送纯文本消息")
    else
      ({ messageRequest with
          MessageType := "textcard",
          TextCard := ⟨message.Title, message.Description, env.ServerAddress⟩ },
       "发送卡片消息")
  else
    if clientType = "plugin" then
      ({ messageRequest with
          MessageType := "textcard",
          TextCard := ⟨message.Title, message.Description, message.URL⟩ },
       "发送plugin的卡片消息")
    else
      ({ messageRequest with MessageType := "markdown", Markdown := ⟨message.Content⟩ },
       "发送plugin的markdown消息")

/-- The title reset at the start of a send: a title equal to `common.SystemName` is
cleared. -/
def resetTitle (env : Environment) (message : Message) : Message :=
  if message.Title = env.SystemName then { message with Title := "" } else message

/-- Go `SendWeChatCorpMessage`: the returned error, the message as it is after the call
(the Go function receives a pointer and may write `Title`), and the effects. -/
def SendWeChatCorpMessage (env : Environment) (message : Message) (_user : User)
    (channel_ : Channel) : Option String × Message × List Effect :=
  match parseWechatCorpAccountAppId channel_.AppId with
  | (_, _, some err) => (some err, message, [])
  | (corpId, agentId, none) =>
    let message := resetTitle env message
    let agentSecret := channel_.Secret
    let built := buildMessageRequest env message channel_ agentId
    let messageRequest := built.1
    let logged := Effect.sysLog built.2
    match env.Marshal messageRequest with
    | .error err => (some err, message, [logged])
    | .ok jsonData =>
      let key := corpId ++ agentId ++ agentSecret
      let accessToken := env.TokenStoreGetToken key
      let url := sendURL accessToken
      let effects := [logged, .tokenStoreGetToken key, .httpPost url "application/json" jsonData]
      match env.Post url "application/json" jsonData with
      | .postFailed err => (some err, message, effects)
      | .decodeFailed err => (some err, message, effects)
      | .decoded res =>
        if res.ErrorCode ≠ 0 then
          (some res.ErrorMessage, message, effects)
        else
          (none, message, effects)

/-! ## Outcome predicates and sample inputs -/

/-- A failed refresh outcome: the request could not be built, the transport failed, the
response body did not decode, or it decoded with a non-zero `errcode`. -/
def TokenExchange.isFailure : TokenExchange → Bool
  | .decoded res => res.ErrorCode != 0
  | _ => true

/-- Whether an effect is a message-send `http.Post`. -/
def Effect.isHttpPost : Effect → Bool
  | .httpPost _ _ _ => true
  | _ => false

/-- A sample environment: the provider answers every send with `errcode 40014`. -/
def sampleEnvironment : Environment :=
  { SystemName := "消息推送服务"
    ServerAddress := "https://push.example.com"
    TokenStoreGetToken := fun _ => "T1"
    Marshal := fun r => .ok r.MessageType
    Post := fun _ _ _ => .decoded ⟨40014, "invalid access_token"⟩ }

/-- A sample message carrying only a description. -/
def sampleMessage : Message :=
  { Title := "消息推送服务", Description := "hello", Content := "", URL := "", To := "" }

/-- A sample user. -/
def sampleUser : User := { Username := "root" }

/-- A sample channel with a well-formed application identity. -/
def sampleChannel : Channel :=
  { Type_ := "corp_app", Secret := "s3", AppId := "wx|1000002", AccountId := "u1", Other := "" }

/-- A sample channel with a malformed application identity. -/
def malformedChannel : Channel :=
  { Type_ := "corp_app", Secret := "s3", AppId := "wx1000002", AccountId := "u1", Other := "" }

/-- The request built for the sample send. -/
def sampleRequest : wechatCorpMessageRequest :=
  (buildMessageRequest sampleEnvironment (resetTitle sampleEnvironment sampleMessage)
    sampleChannel "1000002").1

/-- The descriptor of the sample channel. -/
def sampleItem : WeChatCorpAccountTokenStoreItem :=
  { CorpId := "wx", AgentId := "1000002", AgentSecret := sampleChannel.Secret, AccessToken := "" }

/-! ## Facts about the library model -/

theorem Index_eq_none {sep : Char} : ∀ {s : List Char}, Index s sep = none → sep ∉ s
  | [], _ => by simp
  | c :: cs, h => by
    unfold Index at h
    split at h
    · simp at h
    · rename_i hne
      have ih := Index_eq_none (s := cs) (by simpa using h)
      simp only [List.mem_cons, not_or]
      exact ⟨fun e => hne e.symm, ih⟩

theorem Index_eq_some {sep : Char} :
    ∀ {s : List Char} {m : Nat}, Index s sep = some m →
      sep ∉ s.take m ∧ s = s.take m ++ sep :: s.drop (m + 1)
  | [], m, h => by simp [Index] at h
  | c :: cs, m, h => by
    unfold Index at h
    split at h
    · rename_i heq
      have hm : m = 0 := by simpa using h.symm
      subst hm
      simp [heq]
    · rename_i hne
      cases hi : Index cs sep with
      | none => simp [hi] at h
      | some k =>
        have hm : m = k + 1 := by simpa [hi] using h.symm
        subst hm
        obtain ⟨h1, h2⟩ := Index_eq_some hi
        refine ⟨?_, ?_⟩
        · simp only [List.take_succ_cons, List.mem_cons, not_or]
          exact ⟨fun e => hne e.symm, h1⟩
        · simp only [List.take_succ_cons, List.drop_succ_cons, List.cons_append]
          exact congrArg _ h2

theorem Index_append_sep {sep : Char} :
    ∀ (a b : List Char), sep ∉ a → Index (a ++ sep :: b) sep = some a.length
  | [], b, _ => by simp [Index]
  | c :: cs, b, h => by
    simp only [List.mem_cons, not_or] at h
    have ih := Index_append_sep cs b h.2
    have hne : ¬ c = sep := fun e => h.1 e.symm
    simp [Index, hne, ih]

theorem count_of_Index_eq_some {sep : Char} {s : List Char} {m : Nat}
    (h : Index s sep = some m) : (s.drop (m + 1)).count sep + 1 = s.count sep := by
  obtain ⟨h1, h2⟩ := Index_eq_some h
  have hc : s.count sep = (s.take m ++ sep :: s.drop (m + 1)).count sep := by rw [← h2]
  rw [hc, List.count_append, List.count_eq_zero_of_not_mem h1]
  simp

theorem length_genSplitLoop (sep : Char) :
    ∀ (n : Nat) (s : List Char), n ≤ s.count sep → (genSplitLoop sep n s).length = n + 1
  | 0, s, _ => by simp [genSplitLoop]
  | n + 1, s, h => by
    unfold genSplitLoop
    cases hi : Index s sep with
    | none =>
      have := List.count_eq_zero_of_not_mem (Index_eq_none hi)
      omega
    | some m =>
      have hc := count_of_Index_eq_some hi
      simp only [List.length_cons]
      rw [length_genSplitLoop sep n (s.drop (m + 1)) (by omega)]

theorem length_Split (s : String) (sep : Char) :
    (Split s sep).length = s.data.count sep + 1 := by
  simp [Split, Count, length_genSplitLoop sep _ _ (le_refl _)]

theorem Split_of_count_one (s : String) (sep : Char) (h : s.data.count sep = 1) :
    ∃ a b : List Char, s.data = a ++ sep :: b ∧ sep ∉ a ∧ sep ∉ b ∧
      Split s sep = [String.mk a, String.mk b] := by
  cases hi : Index s.data sep with
  | none =>
    have := List.count_eq_zero_of_not_mem (Index_eq_none hi)
    omega
  | some m =>
    obtain ⟨h1, h2⟩ := Index_eq_some hi
    have hc := count_of_Index_eq_some hi
    refine ⟨s.data.take m, s.data.drop (m + 1), h2, h1, ?_, ?_⟩
    · apply List.count_eq_zero.mp
      omega
    · simp [Split, Count, h, genSplitLoop, hi]

theorem parse_eq_of_count_one (s : String) (h : s.data.count '|' = 1) :
    ∃ a b : String, s = a ++ "|" ++ b ∧ '|' ∉ a.data ∧ '|' ∉ b.data ∧
      parseWechatCorpAccountAppId s = (a, b, none) := by
  obtain ⟨a, b, hs, ha, hb, hsplit⟩ := Split_of_count_one s '|' h
  refine ⟨String.mk a, String.mk b, ?_, ha, hb, ?_⟩
  · apply String.ext
    simp [String.data_append, hs]
  · simp [parseWechatCorpAccountAppId, hsplit]

theorem parse_of_count_ne_one (s : String) (h : s.data.count '|' ≠ 1) :
    parseWechatCorpAccountAppId s = ("", "", some "无效的微信企业号配置") := by
  have hl := length_Split s '|'
  have : (Split s '|').length ≠ 2 := by omega
  simp [parseWechatCorpAccountAppId, this]

theorem Split_append_sep (A B : String) (sep : Char) (hA : sep ∉ A.data) (hB : sep ∉ B.data) :
    Split (A ++ String.singleton sep ++ B) sep = [A, B] := by
  have hd : (A ++ String.singleton sep ++ B).data = A.data ++ sep :: B.data := by
    simp [String.data_append, String.singleton]
  have hcount : (A.data ++ sep :: B.data).count sep = 1 := by
    rw [List.count_append, List.count_cons_self, List.count_eq_zero_of_not_mem hA,
      List.count_eq_zero_of_not_mem hB]
  have hi := Index_append_sep A.data B.data hA
  have hdrop : List.drop (A.data.length + 1) (A.data ++ sep :: B.data) = B.data := by
    have : A.data ++ sep :: B.data = (A.data ++ [sep]) ++ B.data := by simp
    rw [this]
    exact List.drop_left' (by simp)
  simp only [Split, Count, hd, hcount, genSplitLoop, hi, List.map_cons, List.map_nil,
    List.take_left, hdrop]

theorem Key_data (i : WeChatCorpAccountTokenStoreItem) :
    (Key i).data = i.CorpId.data ++ i.AgentId.data ++ i.AgentSecret.data := by
  simp [Key, String.data_append]

/-! ## Claims -/

/-- C3 (as stated, refuted): two descriptors with different credential tuples,
`("a", "b", "c")` and `("ab", "", "c")`, have the same `Key()`, so `Key()` is not
collision-free. -/
theorem Key_collision :
    Key { CorpId := "a", AgentId := "b", AgentSecret := "c", AccessToken := "" } =
      Key { CorpId := "ab", AgentId := "", AgentSecret := "c", AccessToken := "" } ∧
    ¬ (∀ i j : WeChatCorpAccountTokenStoreItem, Key i = Key j →
        i.CorpId = j.CorpId ∧ i.AgentId = j.AgentId ∧ i.AgentSecret = j.AgentSecret) := by
  refine ⟨by decide, fun h => ?_⟩
  have := h { CorpId := "a", AgentId := "b", AgentSecret := "c", AccessToken := "" }
    { CorpId := "ab", AgentId := "", AgentSecret := "c", AccessToken := "" } (by decide)
  exact absurd this.1 (by decide)

/-- C3 (amended): among descriptors whose `CorpId`s have the same length and whose
`AgentId`s have the same length, `Key()` is collision-free: the keys are equal exactly
when the credential tuples `(CorpId, AgentId, AgentSecret)` are equal. -/
theorem Key_eq_iff_of_lengths (i j : WeChatCorpAccountTokenStoreItem)
    (hc : i.CorpId.length = j.CorpId.length) (ha : i.AgentId.length = j.AgentId.length) :
    Key i = Key j ↔
      (i.CorpId = j.CorpId ∧ i.AgentId = j.AgentId ∧ i.AgentSecret = j.AgentSecret) := by
  constructor
  · intro hk
    have hd : (Key i).data = (Key j).data := by rw [hk]
    rw [Key_data, Key_data, List.append_assoc, List.append_assoc] at hd
    have hc1 : i.CorpId.data.length = j.CorpId.data.length := hc
    have ha1 : i.AgentId.data.length = j.AgentId.data.length := ha
    obtain ⟨h1, h2⟩ := List.append_inj hd hc1
    obtain ⟨h3, h4⟩ := List.append_inj h2 ha1
    exact ⟨String.ext h1, String.ext h3, String.ext h4⟩
  · rintro ⟨h1, h2, h3⟩
    simp [Key, h1, h2, h3]

/-- Witness for C3 (amended), at the tuples `("ab", "c", "d")` and `("ab", "c", "e")`. -/
theorem Key_eq_iff_of_lengths_witness :
    Key { CorpId := "ab", AgentId := "c", AgentSecret := "d", AccessToken := "" } =
        Key { CorpId := "ab", AgentId := "c", AgentSecret := "e", AccessToken := "t" } ↔
      ("ab" = "ab" ∧ "c" = "c" ∧ "d" = "e") :=
  Key_eq_iff_of_lengths
    { CorpId := "ab", AgentId := "c", AgentSecret := "d", AccessToken := "" }
    { CorpId := "ab", AgentId := "c", AgentSecret := "e", AccessToken := "t" }
    (by decide) (by decide)

/-- C4: `parseWechatCorpAccountAppId s` returns a nil error exactly when `s` contains
exactly one bar; on `A ++ "|" ++ B` with no bar in `A` or `B` it returns `(A, B, nil)`;
on a string with zero or more than one bar it returns two empty strings and an error. -/
theorem parseWechatCorpAccountAppId_spec :
    (∀ s : String, (parseWechatCorpAccountAppId s).2.2 = none ↔ s.data.count '|' = 1) ∧
    (∀ A B : String, '|' ∉ A.data → '|' ∉ B.data →
      parseWechatCorpAccountAppId (A ++ "|" ++ B) = (A, B, none)) ∧
    (∀ s : String, s.data.count '|' ≠ 1 →
      ∃ err : String, parseWechatCorpAccountAppId s = ("", "", some err)) := by
  refine ⟨fun s => ⟨fun h => ?_, fun h => ?_⟩, fun A B hA hB => ?_, fun s h => ?_⟩
  · by_contra hne
    rw [parse_of_count_ne_one s hne] at h
    simp at h
  · obtain ⟨a, b, _, _, _, hp⟩ := parse_eq_of_count_one s h
    rw [hp]
  · have := Split_append_sep A B '|' hA hB
    have hs : String.singleton '|' = "|" := by decide
    rw [hs] at this
    simp [parseWechatCorpAccountAppId, this]
  · exact ⟨_, parse_of_count_ne_one s h⟩

/-- C5 (as stated, refuted): the identities `"|"`, `"A|"` and `"|B"` are accepted with a
nil error although a returned sub-identifier is empty. -/
theorem parse_accepts_empty_parts :
    parseWechatCorpAccountAppId "|" = ("", "", none) ∧
    parseWechatCorpAccountAppId "A|" = ("A", "", none) ∧
    parseWechatCorpAccountAppId "|B" = ("", "B", none) := by
  decide

/-- C5 (amended): an application identity must split into exactly two parts, empty or
not, or it is invalid: if `parseWechatCorpAccountAppId s` returns `(a, b, nil)` then
`s` is `a ++ "|" ++ b` and neither `a` nor `b` contains a bar. -/
theorem parse_ok_two_parts (s a b : String)
    (h : parseWechatCorpAccountAppId s = (a, b, none)) :
    s = a ++ "|" ++ b ∧ '|' ∉ a.data ∧ '|' ∉ b.data := by
  have hc : s.data.count '|' = 1 := by
    by_contra hne
    rw [parse_of_count_ne_one s hne] at h
    simp at h
  obtain ⟨a1, b1, hs, ha, hb, hp⟩ := parse_eq_of_count_one s hc
  rw [hp] at h
  simp only [Prod.mk.injEq, and_true] at h
  obtain ⟨h1, h2⟩ := h
  subst h1 h2
  exact ⟨hs, ha, hb⟩

/-- Witness for C5 (amended), at the identity `"wx|1000002"`. -/
theorem parse_ok_two_parts_witness :
    "wx|1000002" = "wx" ++ "|" ++ "1000002" ∧ '|' ∉ "wx".data ∧ '|' ∉ "1000002".data :=
  parse_ok_two_parts "wx|1000002" "wx" "1000002" (by decide)

theorem Refresh_of_isFailure (i : WeChatCorpAccountTokenStoreItem) (x : TokenExchange)
    (h : x.isFailure = true) : (Refresh i x).1 = i := by
  cases x with
  | decoded res =>
    have hne : res.ErrorCode ≠ 0 := by simpa [TokenExchange.isFailure] using h
    simp [Refresh, hne]
  | _ => rfl

theorem refreshAll_append (i : WeChatCorpAccountTokenStoreItem) (xs ys : List TokenExchange) :
    refreshAll i (xs ++ ys) = refreshAll (refreshAll i xs) ys := by
  simp [refreshAll, List.foldl_append]

theorem refreshAll_of_all_isFailure :
    ∀ (xs : List TokenExchange) (i : WeChatCorpAccountTokenStoreItem),
      (∀ y ∈ xs, y.isFailure = true) → refreshAll i xs = i
  | [], _, _ => rfl
  | x :: xs, i, h => by
    have hx := Refresh_of_isFailure i x (h x (List.mem_cons_self _ _))
    have ih := refreshAll_of_all_isFailure xs i (fun y hy => h y (List.mem_cons_of_mem _ hy))
    simp only [refreshAll, List.foldl_cons, hx]
    exact ih

/-- C1: on every failed refresh outcome (request construction error, transport error,
undecodable body, decoded body with `errcode != 0`) `Refresh` leaves the descriptor,
and so its `AccessToken`, exactly as it was, and the failure is only logged: the last
effect of the call is a `SysError` line (the Go method returns no value). -/
theorem Refresh_failure_keeps_token (i : WeChatCorpAccountTokenStoreItem) (x : TokenExchange)
    (h : x.isFailure = true) :
    (Refresh i x).1.AccessToken = i.AccessToken ∧ (Refresh i x).1 = i ∧
      ∃ msg : String, (Refresh i x).2.getLast? = some (Effect.sysError msg) := by
  have hi := Refresh_of_isFailure i x h
  refine ⟨by rw [hi], hi, ?_⟩
  cases x with
  | decoded res =>
    have hne : res.ErrorCode ≠ 0 := by simpa [TokenExchange.isFailure] using h
    exact ⟨res.ErrorMessage, by simp [Refresh, hne]⟩
  | newRequestFailed err => exact ⟨_, rfl⟩
  | doFailed err => exact ⟨_, rfl⟩
  | decodeFailed err => exact ⟨_, rfl⟩

/-- Witness for C1: a descriptor holding token `"T0"` and the provider answer
`errcode 40001, errmsg "invalid secret"`. -/
theorem Refresh_failure_keeps_token_witness :
    (Refresh { CorpId := "c", AgentId := "a", AgentSecret := "s", AccessToken := "T0" }
        (.decoded ⟨40001, "invalid secret", "", 0⟩)).1.AccessToken = "T0" ∧
      (Refresh { CorpId := "c", AgentId := "a", AgentSecret := "s", AccessToken := "T0" }
        (.decoded ⟨40001, "invalid secret", "", 0⟩)).1 =
        { CorpId := "c", AgentId := "a", AgentSecret := "s", AccessToken := "T0" } ∧
      ∃ msg : String,
        (Refresh { CorpId := "c", AgentId := "a", AgentSecret := "s", AccessToken := "T0" }
          (.decoded ⟨40001, "invalid secret", "", 0⟩)).2.getLast? = some (Effect.sysError msg) :=
  Refresh_failure_keeps_token
    { CorpId := "c", AgentId := "a", AgentSecret := "s", AccessToken := "T0" }
    (.decoded ⟨40001, "invalid secret", "", 0⟩) (by decide)

/-- C2: starting from a descriptor with an empty `AccessToken`, after any finite
sequence of `Refresh` calls `Token()` is the `access_token` of the last outcome that
decoded with `errcode == 0` (every later outcome being a failure), and is the empty
string when no outcome of the sequence was successful. -/
theorem Token_after_refreshes (i : WeChatCorpAccountTokenStoreItem) (h : i.AccessToken = "")
    (xs : List TokenExchange) :
    (∀ (before after : List TokenExchange) (res : wechatCorpAccountResponse),
        xs = before ++ TokenExchange.decoded res :: after → res.ErrorCode = 0 →
        (∀ y ∈ after, y.isFailure = true) →
        Token (refreshAll i xs) = res.AccessToken) ∧
    ((∀ y ∈ xs, y.isFailure = true) → Token (refreshAll i xs) = "") := by
  constructor
  · intro before after res hxs hres hafter
    have hcons : TokenExchange.decoded res :: after = [TokenExchange.decoded res] ++ after := rfl
    rw [hxs, refreshAll_append, hcons, refreshAll_append,
      refreshAll_of_all_isFailure after _ hafter]
    simp [refreshAll, Refresh, hres, Token]
  · intro hall
    rw [refreshAll_of_all_isFailure xs i hall]
    exact h

/-- Witness for C2: a success with `"T1"`, a success with `"T2"`, then a transport
error; the descriptor ends with `"T2"`. -/
theorem Token_after_refreshes_witness :
    Token (refreshAll { CorpId := "c", AgentId := "a", AgentSecret := "s", AccessToken := "" }
      [.decoded ⟨0, "ok", "T1", 7200⟩, .decoded ⟨0, "ok", "T2", 7200⟩, .doFailed "timeout"])
      = "T2" :=
  (Token_after_refreshes
    { CorpId := "c", AgentId := "a", AgentSecret := "s", AccessToken := "" } rfl
    [.decoded ⟨0, "ok", "T1", 7200⟩, .decoded ⟨0, "ok", "T2", 7200⟩, .doFailed "timeout"]).1
    [.decoded ⟨0, "ok", "T1", 7200⟩] [.doFailed "timeout"] ⟨0, "ok", "T2", 7200⟩ rfl rfl
    (by decide)

/-- C6 (as stated, refuted): with `model.TypeWeChatCorpAccount = "corp_app"`, a store
holding two channel configurations with the secret and application identity
of the descriptor, one of them of another provider type, makes `IsShared()` return false. -/
theorem IsShared_ignores_other_types :
    (IsShared "corp_app"
        [{ Type_ := "corp_app", Secret := "s", AppId := "c|a", AccountId := "u", Other := "" },
         { Type_ := "lark", Secret := "s", AppId := "c|a", AccountId := "v", Other := "" }]
        { CorpId := "c", AgentId := "a", AgentSecret := "s", AccessToken := "" }).1 = false ∧
    2 ≤ List.countP (fun c : Channel => c.Secret == "s" && c.AppId == "c" ++ "|" ++ "a")
        [{ Type_ := "corp_app", Secret := "s", AppId := "c|a", AccountId := "u", Other := "" },
         { Type_ := "lark", Secret := "s", AppId := "c|a", AccountId := "v", Other := "" }] := by
  decide

/-- C6 (amended): `IsShared()` returns true if and only if two or more channel
configurations in the store have the provider type `model.TypeWeChatCorpAccount`, a
secret equal to the `AgentSecret` of the descriptor and an application identity equal to
`CorpId ++ "|" ++ AgentId`; it returns false when zero or one does; it changes neither
the descriptor nor the store. -/
theorem IsShared_iff (TypeWeChatCorpAccount : String) (DB : List Channel)
    (i : WeChatCorpAccountTokenStoreItem) :
    ((IsShared TypeWeChatCorpAccount DB i).1 = true ↔
      2 ≤ List.countP (fun c : Channel => decide (c.Type_ = TypeWeChatCorpAccount ∧
        c.Secret = i.AgentSecret ∧ c.AppId = i.CorpId ++ "|" ++ i.AgentId)) DB) ∧
    ((IsShared TypeWeChatCorpAccount DB i).1 = false ↔
      List.countP (fun c : Channel => decide (c.Type_ = TypeWeChatCorpAccount ∧
        c.Secret = i.AgentSecret ∧ c.AppId = i.CorpId ++ "|" ++ i.AgentId)) DB ≤ 1) ∧
    (IsShared TypeWeChatCorpAccount DB i).2 = (i, DB) := by
  have hp : (fun c : Channel => decide (c.Type_ = TypeWeChatCorpAccount ∧
        c.Secret = i.AgentSecret ∧ c.AppId = i.CorpId ++ "|" ++ i.AgentId)) =
      isSharedCondition TypeWeChatCorpAccount i.AgentSecret (i.CorpId ++ "|" ++ i.AgentId) := by
    funext c
    simp only [isSharedCondition, beq_iff_eq, Bool.decide_and, Bool.decide_eq_true]
    cases hc1 : decide (c.Type_ = TypeWeChatCorpAccount) <;>
      cases hc2 : decide (c.Secret = i.AgentSecret) <;>
      cases hc3 : decide (c.AppId = i.CorpId ++ "|" ++ i.AgentId) <;>
      simp_all
  rw [hp, List.countP_eq_length_filter]
  refine ⟨?_, ?_, rfl⟩
  · simp only [IsShared, decide_eq_true_eq]
    omega
  · simp only [IsShared, decide_eq_false_iff_not]
    omega

/-- C7: when the application identity of the channel does not split on the bar into
exactly two parts, `SendWeChatCorpMessage` returns a non-nil error, has no effect at
all (so no `TokenStoreGetToken` lookup and no HTTP request), and leaves the message,
its `Title` included, unmodified. -/
theorem Send_rejects_malformed_AppId (env : Environment) (message : Message) (user : User)
    (channel_ : Channel) (h : (Split channel_.AppId '|').length ≠ 2) :
    ∃ err : String,
      SendWeChatCorpMessage env message user channel_ = (some err, message, []) := by
  refine ⟨"无效的微信企业号配置", ?_⟩
  simp [SendWeChatCorpMessage, parseWechatCorpAccountAppId, h]

/-- Witness for C7, at an application identity without a bar. -/
theorem Send_rejects_malformed_AppId_witness :
    ∃ err : String,
      SendWeChatCorpMessage sampleEnvironment sampleMessage sampleUser malformedChannel =
        (some err, sampleMessage, []) :=
  Send_rejects_malformed_AppId sampleEnvironment sampleMessage sampleUser malformedChannel
    (by decide)

/-- C8: when the application identity parses, the request marshals, the POST succeeds
and the response decodes to `(errcode, errmsg)`, `SendWeChatCorpMessage` returns nil if
and only if `errcode == 0`, returns an error whose text is exactly `errmsg` when
`errcode != 0`, and performs exactly one POST (no retry). -/
theorem Send_result_of_decoded_response (env : Environment) (message : Message) (user : User)
    (channel_ : Channel) (corpId agentId jsonData : String) (res : wechatCorpMessageResponse)
    (hparse : parseWechatCorpAccountAppId channel_.AppId = (corpId, agentId, none))
    (hmarshal : env.Marshal
      (buildMessageRequest env (resetTitle env message) channel_ agentId).1 = .ok jsonData)
    (hpost : env.Post (sendURL (env.TokenStoreGetToken (corpId ++ agentId ++ channel_.Secret)))
      "application/json" jsonData = .decoded res) :
    ((SendWeChatCorpMessage env message user channel_).1 = none ↔ res.ErrorCode = 0) ∧
    (res.ErrorCode ≠ 0 →
      (SendWeChatCorpMessage env message user channel_).1 = some res.ErrorMessage) ∧
    ((SendWeChatCorpMessage env message user channel_).2.2.filter Effect.isHttpPost).length
      = 1 := by
  simp only [SendWeChatCorpMessage, hparse, hmarshal, hpost]
  by_cases hz : res.ErrorCode = 0
  · simp [hz, Effect.isHttpPost]
  · simp [hz, Effect.isHttpPost]

/-- Witness for C8: the sample send, answered with `errcode 40014`. -/
theorem Send_result_of_decoded_response_witness :
    ((SendWeChatCorpMessage sampleEnvironment sampleMessage sampleUser sampleChannel).1 = none ↔
      (40014 : Int) = 0) ∧
    ((40014 : Int) ≠ 0 →
      (SendWeChatCorpMessage sampleEnvironment sampleMessage sampleUser sampleChannel).1 =
        some "invalid access_token") ∧
    ((SendWeChatCorpMessage sampleEnvironment sampleMessage sampleUser
      sampleChannel).2.2.filter Effect.isHttpPost).length = 1 :=
  Send_result_of_decoded_response sampleEnvironment sampleMessage sampleUser sampleChannel
    "wx" "1000002" "text" ⟨40014, "invalid access_token"⟩ (by decide) rfl rfl

/-- C9: when the application identity parses to `(corpId, agentId)`, the request that
`SendWeChatCorpMessage` builds has `msgtype` equal to `"text"`, `"textcard"` or
`"markdown"`; the sub-object named by `msgtype` is filled from the message and every
field of the two other sub-objects is the empty string; and the body of every POST of
the send is the marshalled form of that request. -/
theorem request_body_one_populated (env : Environment) (message : Message) (user : User)
    (channel_ : Channel) (corpId agentId : String)
    (hparse : parseWechatCorpAccountAppId channel_.AppId = (corpId, agentId, none)) :
    ((buildMessageRequest env (resetTitle env message) channel_ agentId).1.MessageType = "text" ∧
        (buildMessageRequest env (resetTitle env message) channel_ agentId).1.Text =
          ⟨message.Description⟩ ∧
        (buildMessageRequest env (resetTitle env message) channel_ agentId).1.TextCard =
          ⟨"", "", ""⟩ ∧
        (buildMessageRequest env (resetTitle env message) channel_ agentId).1.Markdown = ⟨""⟩ ∨
      (buildMessageRequest env (resetTitle env message) channel_ agentId).1.MessageType =
          "textcard" ∧
        (buildMessageRequest env (resetTitle env message) channel_ agentId).1.TextCard.Title =
          (resetTitle env message).Title ∧
        (buildMessageRequest env (resetTitle env message) channel_ agentId).1.TextCard.Description
          = message.Description ∧
        (buildMessageRequest env (resetTitle env message) channel_ agentId).1.Text = ⟨""⟩ ∧
        (buildMessageRequest env (resetTitle env message) channel_ agentId).1.Markdown = ⟨""⟩ ∨
      (buildMessageRequest env (resetTitle env message) channel_ agentId).1.MessageType =
          "markdown" ∧
        (buildMessageRequest env (resetTitle env message) channel_ agentId).1.Markdown =
          ⟨message.Content⟩ ∧
        (buildMessageRequest env (resetTitle env message) channel_ agentId).1.Text = ⟨""⟩ ∧
        (buildMessageRequest env (resetTitle env message) channel_ agentId).1.TextCard =
          ⟨"", "", ""⟩) ∧
    (∀ url contentType body : String,
      Effect.httpPost url contentType body ∈
          (SendWeChatCorpMessage env message user channel_).2.2 →
        env.Marshal (buildMessageRequest env (resetTitle env message) channel_ agentId).1 =
          .ok body) := by
  constructor
  · have hD : (resetTitle env message).Description = message.Description := by
      unfold resetTitle; split <;> rfl
    have hC : (resetTitle env message).Content = message.Content := by
      unfold resetTitle; split <;> rfl
    unfold buildMessageRequest
    simp only [hD, hC]
    by_cases h1 : message.Content = ""
    · by_cases h2 : (resetTitle env message).Title = ""
      · left
        by_cases h0 : (resetTitle env message).To = "" <;> simp [h0, h1, h2]
      · right; left
        by_cases h0 : (resetTitle env message).To = "" <;> simp [h0, h1, h2]
    · by_cases h3 : channel_.Other = "plugin"
      · right; left
        by_cases h0 : (resetTitle env message).To = "" <;> simp [h0, h1, h3]
      · right; right
        by_cases h0 : (resetTitle env message).To = "" <;> simp [h0, h1, h3]
  · intro url contentType body hmem
    simp only [SendWeChatCorpMessage, hparse] at hmem
    cases hm : env.Marshal (buildMessageRequest env (resetTitle env message) channel_ agentId).1 with
    | error err => simp [hm] at hmem
    | ok jsonData =>
      simp only [hm] at hmem
      have hbody : ∀ effects : List Effect, effects =
          [Effect.sysLog (buildMessageRequest env (resetTitle env message) channel_ agentId).2,
            Effect.tokenStoreGetToken (corpId ++ agentId ++ channel_.Secret),
            Effect.httpPost
              (sendURL (env.TokenStoreGetToken (corpId ++ agentId ++ channel_.Secret)))
              "application/json" jsonData] →
          Effect.httpPost url contentType body ∈ effects → jsonData = body := by
        intro effects he hin
        subst he
        simp at hin
        exact hin.2.2.symm
      congr 1
      split at hmem
      · exact hbody _ rfl hmem
      · exact hbody _ rfl hmem
      · split at hmem
        · exact hbody _ rfl hmem
        · exact hbody _ rfl hmem

/-- Witness for C9: the sample send builds a `"text"` request. -/
theorem request_body_one_populated_witness :
    (sampleRequest.MessageType = "text" ∧ sampleRequest.Text = ⟨sampleMessage.Description⟩ ∧
        sampleRequest.TextCard = ⟨"", "", ""⟩ ∧ sampleRequest.Markdown = ⟨""⟩ ∨
      sampleRequest.MessageType = "textcard" ∧
        sampleRequest.TextCard.Title = (resetTitle sampleEnvironment sampleMessage).Title ∧
        sampleRequest.TextCard.Description = sampleMessage.Description ∧
        sampleRequest.Text = ⟨""⟩ ∧ sampleRequest.Markdown = ⟨""⟩ ∨
      sampleRequest.MessageType = "markdown" ∧
        sampleRequest.Markdown = ⟨sampleMessage.Content⟩ ∧
        sampleRequest.Text = ⟨""⟩ ∧ sampleRequest.TextCard = ⟨"", "", ""⟩) :=
  (request_body_one_populated sampleEnvironment sampleMessage sampleUser sampleChannel
    "wx" "1000002" (by decide)).1

/-- C10: when the application identity parses to `(corpId, agentId)`, every key that
`SendWeChatCorpMessage` passes to `TokenStoreGetToken` is `Key()` of the descriptor with
that `CorpId`, that `AgentId` and the secret of the channel as `AgentSecret`; and when
the request marshals, that lookup is made. -/
theorem Send_lookup_key_eq_Key (env : Environment) (message : Message) (user : User)
    (channel_ : Channel) (corpId agentId accessToken : String)
    (hparse : parseWechatCorpAccountAppId channel_.AppId = (corpId, agentId, none)) :
    (∀ key : String,
      Effect.tokenStoreGetToken key ∈ (SendWeChatCorpMessage env message user channel_).2.2 →
        key = Key { CorpId := corpId, AgentId := agentId, AgentSecret := channel_.Secret,
                    AccessToken := accessToken }) ∧
    (∀ jsonData : String,
      env.Marshal (buildMessageRequest env (resetTitle env message) channel_ agentId).1 =
          .ok jsonData →
        Effect.tokenStoreGetToken
            (Key { CorpId := corpId, AgentId := agentId, AgentSecret := channel_.Secret,
                   AccessToken := accessToken }) ∈
          (SendWeChatCorpMessage env message user channel_).2.2) := by
  have hshape : ∀ jsonData : String,
      env.Marshal (buildMessageRequest env (resetTitle env message) channel_ agentId).1 =
          .ok jsonData →
      (SendWeChatCorpMessage env message user channel_).2.2 =
        [Effect.sysLog (buildMessageRequest env (resetTitle env message) channel_ agentId).2,
          Effect.tokenStoreGetToken (corpId ++ agentId ++ channel_.Secret),
          Effect.httpPost
            (sendURL (env.TokenStoreGetToken (corpId ++ agentId ++ channel_.Secret)))
            "application/json" jsonData] := by
    intro jsonData hm
    simp only [SendWeChatCorpMessage, hparse, hm]
    split
    · rfl
    · rfl
    · split <;> rfl
  constructor
  · intro key hmem
    cases hm : env.Marshal (buildMessageRequest env (resetTitle env message) channel_ agentId).1 with
    | error err =>
      simp [SendWeChatCorpMessage, hparse, hm] at hmem
    | ok jsonData =>
      rw [hshape jsonData hm] at hmem
      simp at hmem
      simp [Key, hmem]
  · intro jsonData hm
    rw [hshape jsonData hm]
    simp [Key]

/-- Witness for C10: the lookup key of the sample send is the key of the sample
descriptor. -/
theorem Send_lookup_key_eq_Key_witness :
    Effect.tokenStoreGetToken (Key sampleItem) ∈
      (SendWeChatCorpMessage sampleEnvironment sampleMessage sampleUser sampleChannel).2.2 :=
  (Send_lookup_key_eq_Key sampleEnvironment sampleMessage sampleUser sampleChannel
    "wx" "1000002" "" (by decide)).2 "text" rfl

end channel
